import Mathlib

/-!
Verification of the deterministic data-generation engine and the
latency/error injection middleware of the nodejs-performance-app
repository.

The TypeScript sources are shallowly embedded as follows.

* JavaScript numbers are modelled as exact rationals (`ℚ`); integer-valued
  quantities (seeds, offsets, PRNG states) as `ℤ`.  The arithmetic the
  claims exercise stays far away from float64 rounding boundaries, so the
  exact model agrees with the float semantics on every fact proved here.
* The JS remainder operator `%` (sign of the dividend) is `Int.tmod`.
* The stateful PRNG closure produced by `createSeededRandom` is modelled by
  explicit state passing: the closure's captured `currentSeed` is a `ℤ`
  threaded through every operation that draws from it.
* JS exceptions are modelled by the `JsResult` sum type.
* `Date.now()` and JS date-string parsing are genuine external inputs of
  the program; they enter the embedding as explicit parameters
  (`nowMs : ℚ`, `jsDateParse : String → Option ℚ`, where `none` plays the
  role of an invalid date / `NaN` timestamp, which makes `toISOString`
  throw).  The value rendered for an `iso8601` field is represented by its
  millisecond timestamp (`Value.vIso`); no claim inspects the textual date.
-/

namespace NodePerf

/-- Result of a JS computation that can throw: either a value or the
message of the thrown `Error`. -/
inductive JsResult (α : Type) where
  | ok (a : α)
  | err (msg : String)
deriving DecidableEq

/-- A JS value that can appear as a generated field value or as a schema
`default`: string, number, boolean, an iso8601 date (represented by its
timestamp), or `undefined`. -/
inductive Value where
  | vStr (s : String)
  | vNum (q : ℚ)
  | vBool (b : Bool)
  | vIso (timestampMs : ℚ)
  | vUndef
deriving DecidableEq

/-- A constraint bound (`min`/`max` in `FieldConstraints`), which the
TypeScript type declares as `number | string`. -/
inductive ConstraintVal where
  | num (q : ℚ)
  | str (s : String)
deriving DecidableEq

/-- `FieldConstraints` from `src/types`: all attributes optional. -/
structure FieldConstraints where
  min : Option ConstraintVal := none
  max : Option ConstraintVal := none
  length : Option ℚ := none
  pattern : Option String := none
  enum : Option (List String) := none
  format : Option String := none
deriving DecidableEq

/-- `FieldDefinition` from `src/types`.  `type` is `none` when the runtime
object lacks the property (TypeScript's closed union is not enforced at
runtime; `validateSchema` checks it explicitly).  `required` defaults to
`true`, mirroring the destructuring default in `generateFieldValue`. -/
structure FieldDefinition where
  type : Option String := none
  required : Bool := true
  default : Option Value := none
  constraints : Option FieldConstraints := none
deriving DecidableEq

/-- `DataSchema`: a JS object mapping field names to definitions, modelled
as an association list in `Object.entries` (insertion) order. -/
abbrev DataSchema := List (String × FieldDefinition)

/-- `MockRecord`: the synthetic `id` plus the generated fields in schema
order. -/
structure MockRecord where
  id : String
  fields : List (String × Value)
deriving DecidableEq

/-- `DataGeneratorState` from `src/types`. -/
structure DataGeneratorState where
  currentOffset : ℤ
  totalRecords : ℤ
  generatedCount : ℤ
  schema : DataSchema
  seed : ℤ
deriving DecidableEq

/-- `GenerationConfig` from `src/types` (`seed` optional). -/
structure GenerationConfig where
  totalRecords : ℤ
  batchSize : ℤ
  schema : DataSchema
  seed : Option ℤ := none

/-- The argument of `reset`: `Partial<GenerationConfig>`. -/
structure ResetConfig where
  totalRecords : Option ℤ := none
  batchSize : Option ℤ := none
  schema : Option DataSchema := none
  seed : Option ℤ := none

/-- The record returned by `generateBatch`. -/
structure BatchResult where
  records : List MockRecord
  hasMore : Bool
  nextOffset : Option String
  totalCount : ℤ
deriving DecidableEq

/-- One step of the closure returned by `createSeededRandom`:
`currentSeed = (currentSeed * 9301 + 49297) % 233280` (JS `%` truncates
toward zero, i.e. `Int.tmod`). -/
def seededRandomNext (s : ℤ) : ℤ :=
  Int.tmod (s * 9301 + 49297) 233280

/-- The float the closure returns after stepping: `currentSeed / 233280`. -/
def seededRandomValue (s : ℤ) : ℚ :=
  ((seededRandomNext s : ℤ) : ℚ) / 233280

/-- Closure state after `n` calls to the generator created by
`createSeededRandom seed`. -/
def seededRandomState (seed : ℤ) : ℕ → ℤ
  | 0 => seed
  | n + 1 => seededRandomNext (seededRandomState seed n)

/-- The `n`-th float (0-based) in the stream of `createSeededRandom seed`. -/
def seededRandomStream (seed : ℤ) (n : ℕ) : ℚ :=
  ((seededRandomState seed (n + 1) : ℤ) : ℚ) / 233280

/-- JS `Number.prototype.toString(16)` for integers: lowercase hex digits,
with a leading minus sign for negative values. -/
def jsHexString (s : ℤ) : String :=
  if s < 0 then "-" ++ (Nat.toDigits 16 s.natAbs).asString
  else (Nat.toDigits 16 s.toNat).asString

/-- JS `String.prototype.padStart(n, c)`. -/
def jsPadStart (s : String) (n : ℕ) (c : Char) : String :=
  if n ≤ s.length then s
  else ⟨List.replicate (n - s.length) c⟩ ++ s

/-- JS `String.prototype.slice(a, b)` for `0 ≤ a ≤ b`. -/
def jsSlice (s : String) (a b : ℕ) : String :=
  ⟨(s.data.drop a).take (b - a)⟩

/-- `generateDeterministicUuid(seed)` from `dataGenerator.ts` lines
212-216: hex-encode the seed padded to at least 8 characters, then
assemble `slice(0,8)-slice(0,4)-4slice(1,4)-8slice(2,5)-slice(0,12)`. -/
def generateDeterministicUuid (seed : ℤ) : String :=
  let seedStr := jsPadStart (jsHexString seed) 8 '0'
  jsSlice seedStr 0 8 ++ "-" ++ jsSlice seedStr 0 4 ++ "-4" ++
    jsSlice seedStr 1 4 ++ "-8" ++ jsSlice seedStr 2 5 ++ "-" ++
    jsSlice seedStr 0 12

/-- `generateId(index)`: the record identifier, derived from
`state.seed + index` without touching the PRNG. -/
def generateId (seed index : ℤ) : String :=
  generateDeterministicUuid (seed + index)

/-- Number of iterations of a JS loop `for (let i = 0; i < length; i++)`
when `length` is an arbitrary (possibly fractional or negative) number. -/
def jsLoopCount (l : ℚ) : ℕ :=
  if l ≤ 0 then 0 else (⌈l⌉ : ℤ).toNat

/-- JS `String.prototype.charAt(i)`: the one-character string at index
`i`, or the empty string when the index is out of range. -/
def jsCharAt (s : String) (i : ℤ) : String :=
  if i < 0 then ""
  else
    match s.data.get? i.toNat with
    | some c => ⟨[c]⟩
    | none => ""

/-- The alphabet used by `generateString` (62 characters). -/
def stringChars : String :=
  "ABCDEFGHIJKLMNOPQRSTUVWXYZabcdefghijklmnopqrstuvwxyz0123456789"

/-- The character-accumulation loop of `generateString` lines 140-143:
each iteration draws once and appends
`chars.charAt(Math.floor(draw * chars.length))`. -/
def generateChars : ℕ → ℤ → String × ℤ
  | 0, p => ("", p)
  | n + 1, p =>
      let r := seededRandomValue p
      let p1 := seededRandomNext p
      let (rest, p2) := generateChars n p1
      (jsCharAt stringChars ⌊r * 62⌋ ++ rest, p2)

/-- The `length` computation of `generateString` lines 127-131.  JS `||`
and `&&` are truthiness-based: a declared `length` of `0` falls through to
the right operand, and the `min`/`max` branch fires only when both are
truthy (non-zero) numbers; it then consumes one draw.  Returns the chosen
length together with the PRNG state. -/
def computeStringLength (c : Option FieldConstraints) (p : ℤ) : ℚ × ℤ :=
  let fallback : ℚ × ℤ :=
    match c.bind (·.min), c.bind (·.max) with
    | some (.num a), some (.num b) =>
        if a ≠ 0 ∧ b ≠ 0 then
          let r := seededRandomValue p
          ((⌊r * (b - a) + a⌋ : ℤ), seededRandomNext p)
        else (10, p)
    | _, _ => (10, p)
  match c.bind (·.length) with
  | some l => if l = 0 then fallback else (l, p)
  | none => fallback

/-- `generateString` without the `pattern` branch (lines 127-144 with a
falsy `pattern`).  The recursive calls `generateString({length: 8})` and
`generateString({length})` in `generateStringFromPattern` pass constraint
objects that carry no `pattern`, so they unfold to exactly this. -/
def generateStringBase (c : Option FieldConstraints) (p : ℤ) : String × ℤ :=
  let (len, p1) := computeStringLength c p
  generateChars (jsLoopCount len) p1

/-- `generateStringFromPattern(pattern, length)` lines 192-207: `email`
draws a domain then an 8-character local part; `phone` draws three
fixed-width numeric groups; anything else falls back to a plain random
string of the given length.  JS renders an out-of-range array access as
`undefined` inside the template literal. -/
def generateStringFromPattern (pat : String) (len : ℚ) (p : ℤ) : String × ℤ :=
  if pat = "email" then
    let r := seededRandomValue p
    let p1 := seededRandomNext p
    let domain :=
      match (if (⌊r * 3⌋ : ℤ) < 0 then none
             else ["example.com", "test.org", "demo.net"].get? (⌊r * 3⌋ : ℤ).toNat) with
      | some d => d
      | none => "undefined"
    let (username, p2) := generateStringBase (some { length := some 8 }) p1
    (username ++ "@" ++ domain, p2)
  else if pat = "phone" then
    let r1 := seededRandomValue p
    let p1 := seededRandomNext p
    let r2 := seededRandomValue p1
    let p2 := seededRandomNext p1
    let r3 := seededRandomValue p2
    let p3 := seededRandomNext p2
    ("+1" ++ (⌊r1 * 900 + 100⌋ : ℤ).repr ++ (⌊r2 * 900 + 100⌋ : ℤ).repr ++
       (⌊r3 * 9000 + 1000⌋ : ℤ).repr, p3)
  else
    generateStringBase (some { length := some len }) p

/-- `generateString(constraints)` lines 126-145: compute the length (which
may consume a draw), then either delegate to the pattern generator (when
`pattern` is truthy) or emit random alphanumeric characters. -/
def generateString (c : Option FieldConstraints) (p : ℤ) : String × ℤ :=
  let (len, p1) := computeStringLength c p
  match c.bind (·.pattern) with
  | some pt =>
      if pt = "" then generateChars (jsLoopCount len) p1
      else generateStringFromPattern pt len p1
  | none => generateChars (jsLoopCount len) p1

/-- `generateNumber(constraints)` lines 150-159: bounds default to
`[0, 1000]` when absent or non-numeric; one draw; floored when
`format === 'integer'`. -/
def generateNumber (c : Option FieldConstraints) (p : ℤ) : Value × ℤ :=
  let lo : ℚ := match c.bind (·.min) with | some (.num q) => q | _ => 0
  let hi : ℚ := match c.bind (·.max) with | some (.num q) => q | _ => 1000
  let r := seededRandomValue p
  let p1 := seededRandomNext p
  if c.bind (·.format) = some "integer" then
    (Value.vNum ((⌊r * (hi - lo) + lo⌋ : ℤ) : ℚ), p1)
  else
    (Value.vNum (r * (hi - lo) + lo), p1)

/-- `generateIso8601Date(constraints)` lines 164-175.  A bound is taken
from the constraint only when it is a truthy string; otherwise it defaults
to one year before `now` (resp. `now`).  A constraint string that fails to
parse gives a `NaN` timestamp and `toISOString()` throws a `RangeError`;
the draw happens while the timestamp expression is evaluated, before the
throw. -/
def generateIso8601Date (jsDateParse : String → Option ℚ) (nowMs : ℚ)
    (c : Option FieldConstraints) (p : ℤ) : JsResult Value × ℤ :=
  let minT : Option ℚ :=
    match c.bind (·.min) with
    | some (.str s) => if s = "" then some (nowMs - 31536000000) else jsDateParse s
    | _ => some (nowMs - 31536000000)
  let maxT : Option ℚ :=
    match c.bind (·.max) with
    | some (.str s) => if s = "" then some nowMs else jsDateParse s
    | _ => some nowMs
  let r := seededRandomValue p
  let p1 := seededRandomNext p
  match minT, maxT with
  | some a, some b => (JsResult.ok (Value.vIso (a + r * (b - a))), p1)
  | _, _ => (JsResult.err "Invalid time value", p1)

/-- `generateEnum(constraints)` lines 180-187: throws when the `enum`
constraint is missing or empty, otherwise draws once and indexes into the
list (a JS out-of-range access yields `undefined`). -/
def generateEnum (c : Option FieldConstraints) (p : ℤ) : JsResult Value × ℤ :=
  match c.bind (·.enum) with
  | none => (JsResult.err "Enum field must have enum constraint with values", p)
  | some l =>
      if l = [] then
        (JsResult.err "Enum field must have enum constraint with values", p)
      else
        let r := seededRandomValue p
        let p1 := seededRandomNext p
        match (if (⌊r * l.length⌋ : ℤ) < 0 then none
               else l.get? (⌊r * l.length⌋ : ℤ).toNat) with
        | some v => (JsResult.ok (Value.vStr v), p1)
        | none => (JsResult.ok Value.vUndef, p1)

/-- The `switch (type)` dispatch of `generateFieldValue` lines 99-120; an
unknown or missing `type` throws. -/
def generateFieldValueCore (jsDateParse : String → Option ℚ) (nowMs : ℚ)
    (seed : ℤ) (fd : FieldDefinition) (index : ℤ) (p : ℤ) : JsResult Value × ℤ :=
  match fd.type with
  | some "uuid" => (JsResult.ok (Value.vStr (generateDeterministicUuid (seed + index))), p)
  | some "string" =>
      let (s, p1) := generateString fd.constraints p
      (JsResult.ok (Value.vStr s), p1)
  | some "number" =>
      let (v, p1) := generateNumber fd.constraints p
      (JsResult.ok v, p1)
  | some "boolean" =>
      let r := seededRandomValue p
      (JsResult.ok (Value.vBool (decide (r < 1 / 2))), seededRandomNext p)
  | some "iso8601" => generateIso8601Date jsDateParse nowMs fd.constraints p
  | some "enum" => generateEnum fd.constraints p
  | some t => (JsResult.err ("Unsupported field type: " ++ t), p)
  | none => (JsResult.err "Unsupported field type: undefined", p)

/-- `generateFieldValue(fieldDef, index)` lines 91-121: when a `default`
is declared it is returned outright for non-required fields, and for
required fields with probability 0.1 (JS `&&`/`||` short-circuiting: the
coin is only flipped when a default exists and the field is required);
otherwise dispatch on the declared type. -/
def generateFieldValue (jsDateParse : String → Option ℚ) (nowMs : ℚ)
    (seed : ℤ) (fd : FieldDefinition) (index : ℤ) (p : ℤ) : JsResult Value × ℤ :=
  match fd.default with
  | some dv =>
      if fd.required = false then (JsResult.ok dv, p)
      else
        let r := seededRandomValue p
        let p1 := seededRandomNext p
        if r < 1 / 10 then (JsResult.ok dv, p1)
        else generateFieldValueCore jsDateParse nowMs seed fd index p1
  | none => generateFieldValueCore jsDateParse nowMs seed fd index p

/-- The field loop of `generateRecord` lines 72-74, over the schema in
`Object.entries` order; the first throw aborts the record. -/
def generateFields (jsDateParse : String → Option ℚ) (nowMs : ℚ) (seed : ℤ) :
    DataSchema → ℤ → ℤ → JsResult (List (String × Value)) × ℤ
  | [], _, p => (JsResult.ok [], p)
  | (name, fd) :: rest, index, p =>
      match generateFieldValue jsDateParse nowMs seed fd index p with
      | (.err e, p1) => (.err e, p1)
      | (.ok v, p1) =>
          match generateFields jsDateParse nowMs seed rest index p1 with
          | (.err e, p2) => (.err e, p2)
          | (.ok vs, p2) => (.ok ((name, v) :: vs), p2)

/-- `generateRecord(index)` lines 66-77: the deterministic `id` plus each
schema field in order. -/
def generateRecord (jsDateParse : String → Option ℚ) (nowMs : ℚ) (seed : ℤ)
    (schema : DataSchema) (index : ℤ) (p : ℤ) : JsResult MockRecord × ℤ :=
  match generateFields jsDateParse nowMs seed schema index p with
  | (.err e, p1) => (.err e, p1)
  | (.ok vs, p1) => (.ok { id := generateId seed index, fields := vs }, p1)

/-- The record loop of `generateBatch` lines 47-50, generating `n` records
starting at index `i`. -/
def generateBatchLoop (jsDateParse : String → Option ℚ) (nowMs : ℚ) (seed : ℤ)
    (schema : DataSchema) : ℤ → ℕ → ℤ → JsResult (List MockRecord) × ℤ
  | _, 0, p => (JsResult.ok [], p)
  | i, n + 1, p =>
      match generateRecord jsDateParse nowMs seed schema i p with
      | (.err e, p1) => (.err e, p1)
      | (.ok r, p1) =>
          match generateBatchLoop jsDateParse nowMs seed schema (i + 1) n p1 with
          | (.err e, p2) => (.err e, p2)
          | (.ok rs, p2) => (.ok (r :: rs), p2)

/-- `generateBatch(offset, limit)` lines 36-61: clamp the end index to
`min(offset + limit, totalRecords)`, generate the records of the range,
and report `hasMore`/`nextOffset`/`totalCount`. -/
def generateBatch (jsDateParse : String → Option ℚ) (nowMs : ℚ)
    (st : DataGeneratorState) (p : ℤ) (offset limit : ℤ) : JsResult BatchResult × ℤ :=
  let startIndex := offset
  let endIndex := min (startIndex + limit) st.totalRecords
  match generateBatchLoop jsDateParse nowMs st.seed st.schema startIndex
      (endIndex - startIndex).toNat p with
  | (.err e, p1) => (.err e, p1)
  | (.ok recs, p1) =>
      let more : Bool := decide (endIndex < st.totalRecords)
      (.ok { records := recs, hasMore := more,
             nextOffset := if more then some endIndex.repr else none,
             totalCount := st.totalRecords }, p1)

/-- A `DataGenerator` instance: its `state` object together with the
`currentSeed` captured by the `seededRandom` closure. -/
structure Engine where
  st : DataGeneratorState
  prng : ℤ
deriving DecidableEq

/-- The constructor (lines 20-31): counters start at 0, the seed falls
back to `Date.now()` when `config.seed` is absent or `0` (JS `||` treats
`0` as falsy), and the PRNG closure is initialised from the seed. -/
def mkDataGenerator (cfg : GenerationConfig) (nowClock : ℤ) : Engine :=
  let seed : ℤ :=
    match cfg.seed with
    | some s => if s = 0 then nowClock else s
    | none => nowClock
  { st := { currentOffset := 0, totalRecords := cfg.totalRecords,
            generatedCount := 0, schema := cfg.schema, seed := seed },
    prng := seed }

/-- `reset(config)` lines 232-248: overwrite exactly the provided fields,
rebind the PRNG when a seed is provided, and zero both counters. -/
def reset (c : ResetConfig) (e : Engine) : Engine :=
  let st1 := match c.totalRecords with
    | some t => { e.st with totalRecords := t }
    | none => e.st
  let st2 := match c.schema with
    | some s => { st1 with schema := s }
    | none => st1
  match c.seed with
  | some s =>
      { st := { st2 with seed := s, currentOffset := 0, generatedCount := 0 },
        prng := s }
  | none =>
      { st := { st2 with currentOffset := 0, generatedCount := 0 },
        prng := e.prng }

/-- `updateSchema(schema)` lines 253-255: replaces the schema only. -/
def updateSchema (schema : DataSchema) (e : Engine) : Engine :=
  { e with st := { e.st with schema := schema } }

/-- `getState()` lines 260-262: a copy of the state object. -/
def getState (e : Engine) : DataGeneratorState :=
  e.st

/-- The object returned by `getMetrics()` lines 307-315. -/
structure Metrics where
  totalRecords : ℤ
  generatedCount : ℤ
  currentOffset : ℤ
  seed : ℤ
  schemaFields : ℕ
deriving DecidableEq

/-- `getMetrics()` lines 307-315. -/
def getMetrics (e : Engine) : Metrics :=
  { totalRecords := e.st.totalRecords, generatedCount := e.st.generatedCount,
    currentOffset := e.st.currentOffset, seed := e.st.seed,
    schemaFields := e.st.schema.length }

/-- The effect of a `generateBatch` call on the instance: only the PRNG
closure state advances; `this.state` is never written (lines 36-61). -/
def engineGenerateBatch (jsDateParse : String → Option ℚ) (nowMs : ℚ)
    (e : Engine) (offset limit : ℤ) : Engine :=
  { e with prng := (generateBatch jsDateParse nowMs e.st e.prng offset limit).2 }

/-- The engine states reachable from a constructor call through any
sequence of `generateBatch` / `reset` / `updateSchema` calls (the read
operations `getState` / `getMetrics` do not write). -/
inductive Reachable : Engine → Prop
  | init (cfg : GenerationConfig) (nowClock : ℤ) :
      Reachable (mkDataGenerator cfg nowClock)
  | stepBatch (jsDateParse : String → Option ℚ) (nowMs : ℚ)
      (offset limit : ℤ) {e : Engine} : Reachable e →
      Reachable (engineGenerateBatch jsDateParse nowMs e offset limit)
  | stepReset (c : ResetConfig) {e : Engine} : Reachable e →
      Reachable (reset c e)
  | stepUpdate (schema : DataSchema) {e : Engine} : Reachable e →
      Reachable (updateSchema schema e)

/-- The closed set of valid type names checked by `validateSchema`. -/
def validTypes : List String :=
  ["uuid", "string", "number", "boolean", "iso8601", "enum"]

/-- Decimal value of a digit list. -/
def digitsToNat (l : List Char) : ℕ :=
  l.foldl (fun a c => a * 10 + (c.toNat - 48)) 0

/-- Whitespace trimming on a character list (JS `ToNumber` first strips
whitespace from both ends). -/
def trimChars (l : List Char) : List Char :=
  (((l.dropWhile Char.isWhitespace).reverse).dropWhile Char.isWhitespace).reverse

/-- JS `ToNumber` on strings, restricted to the fragment that can matter
here: the empty (or all-whitespace) string converts to `0`, an
optional-sign decimal integer string to its value, and every other string
to `NaN` (`none`).  Fractional, hex and exponent literals do not occur in
this repository and are conservatively mapped to `NaN`. -/
def jsToNumber (s : String) : Option ℚ :=
  match trimChars s.data with
  | [] => some 0
  | '-' :: ds =>
      if ds ≠ [] ∧ ds.all Char.isDigit then some (-(digitsToNat ds : ℚ)) else none
  | '+' :: ds =>
      if ds ≠ [] ∧ ds.all Char.isDigit then some ((digitsToNat ds : ℚ)) else none
  | ds =>
      if ds.all Char.isDigit then some ((digitsToNat ds : ℚ)) else none

/-- Lexicographic comparison of UTF-16 character sequences: the JS `<` on
strings. -/
def jsStrLt : List Char → List Char → Bool
  | [], [] => false
  | [], _ :: _ => true
  | _ :: _, [] => false
  | a :: as, b :: bs =>
      if a.toNat < b.toNat then true
      else if b.toNat < a.toNat then false
      else jsStrLt as bs

/-- The JS abstract relational comparison `min > max` as it runs in
`validateSchema`: number against number numerically, string against
string lexicographically, and in mixed comparisons the string is converted
with `ToNumber` (a `NaN` conversion makes the comparison false). -/
def jsGt (a b : ConstraintVal) : Bool :=
  match a, b with
  | .num x, .num y => decide (y < x)
  | .str x, .str y => jsStrLt y.data x.data
  | .num x, .str y =>
      match jsToNumber y with
      | some q => decide (q < x)
      | none => false
  | .str x, .num y =>
      match jsToNumber x with
      | some q => decide (y < q)
      | none => false

/-- The `{valid, errors}` object returned by `validateSchema`. -/
structure ValidationResult where
  valid : Bool
  errors : List String
deriving DecidableEq

/-- The per-field checks of `validateSchema` lines 270-296, in source
order; a missing (or empty, hence falsy) `type` short-circuits the rest of
the field's checks via `continue`. -/
def validateField (name : String) (fd : FieldDefinition) : List String :=
  let t := match fd.type with | some t => t | none => ""
  if t = "" then ["Field \x27" ++ name ++ "\x27 missing type"]
  else
    (if validTypes.contains t then []
     else ["Field \x27" ++ name ++ "\x27 has invalid type \x27" ++ t ++ "\x27"]) ++
    (if (t == "enum") && (match fd.constraints.bind (·.enum) with
        | none => true
        | some l => l.isEmpty) then
       ["Field \x27" ++ name ++ "\x27 of type \x27enum\x27 must have enum constraint with values"]
     else []) ++
    (match fd.constraints with
     | none => []
     | some c =>
         (match c.min, c.max with
          | some mn, some mx =>
              if jsGt mn mx then
                ["Field \x27" ++ name ++ "\x27 min constraint cannot be greater than max"]
              else []
          | _, _ => []) ++
         (match c.length with
          | some l =>
              if l < 0 then
                ["Field \x27" ++ name ++ "\x27 length constraint cannot be negative"]
              else []
          | none => []))

/-- `validateSchema(schema)` lines 267-302: collect the per-field errors
in field order; `valid` iff no error. -/
def validateSchema (schema : DataSchema) : ValidationResult :=
  let errors := schema.flatMap (fun nf => validateField nf.1 nf.2)
  { valid := errors.isEmpty, errors := errors }

/-- An `ErrorType` entry from `src/types`. -/
structure ErrorType where
  type : String
  statusCode : ℤ
  message : String
  probability : ℚ
deriving DecidableEq

/-- `ErrorInjectionConfig` from `errorInjection.ts`. -/
structure ErrorInjectionConfig where
  enabled : Bool
  errorRate : ℚ
  errorTypes : List ErrorType
  applyToRoutes : Option (List String) := none
  excludeRoutes : Option (List String) := none

/-- Helper for JS `String.prototype.includes` (scan for the pattern as a
prefix of every suffix). -/
def listIncludesAux (pat : List Char) : List Char → Bool
  | [] => pat.isPrefixOf ([] : List Char)
  | c :: rest => pat.isPrefixOf (c :: rest) || listIncludesAux pat rest

/-- JS `String.prototype.includes`. -/
def strIncludes (s pat : String) : Bool :=
  listIncludesAux pat.data s.data

/-- The `excludeRoutes` fallthrough of `shouldApplyErrors` lines 121-126. -/
def shouldApplyErrorsExclude (cfg : ErrorInjectionConfig) (path : String) : Bool :=
  match cfg.excludeRoutes with
  | some routes =>
      if routes.isEmpty then true
      else !(routes.any (fun route => path.startsWith route))
  | none => true

/-- `shouldApplyErrors(path)` lines 109-127: health/metrics paths are
always skipped; a non-empty `applyToRoutes` whitelists prefixes; otherwise
a non-empty `excludeRoutes` blacklists prefixes; default is to apply. -/
def shouldApplyErrors (cfg : ErrorInjectionConfig) (path : String) : Bool :=
  if strIncludes path "health" || strIncludes path "metrics" then false
  else
    match cfg.applyToRoutes with
    | some routes =>
        if routes.isEmpty then shouldApplyErrorsExclude cfg path
        else routes.any (fun route => path.startsWith route)
    | none => shouldApplyErrorsExclude cfg path

/-- The subtraction walk of `selectErrorType` lines 144-149: subtract each
weight from the running draw and return the first entry that sends it
non-positive. -/
def selectErrorTypeLoop : List ErrorType → ℚ → Option ErrorType
  | [], _ => none
  | e :: rest, r =>
      if r - e.probability ≤ 0 then some e
      else selectErrorTypeLoop rest (r - e.probability)

/-- `selectErrorType()` lines 132-153, with the draw `u' ∈ [0,1)` made
explicit (the source computes `random = Math.random() * totalProbability`):
a zero total weight yields `null`; otherwise walk the list; the
(unreachable for `u' < 1`) loop fallthrough returns `errorTypes[0] || null`. -/
def selectErrorType (types : List ErrorType) (u' : ℚ) : Option ErrorType :=
  let totalProbability := (types.map (·.probability)).sum
  if totalProbability = 0 then none
  else
    match selectErrorTypeLoop types (u' * totalProbability) with
    | some e => some e
    | none => types.head?

/-- The decision path of the `injectErrors` middleware lines 28-50, with
the two draws made explicit: which error (if any) is injected for a
request.  `none` means the request proceeds normally (`next()`). -/
def injectErrorsDecision (cfg : ErrorInjectionConfig) (path : String)
    (u u' : ℚ) : Option ErrorType :=
  if cfg.enabled = false then none
  else if shouldApplyErrors cfg path = false then none
  else if cfg.errorRate < u then none
  else selectErrorType cfg.errorTypes u'

/-- The three latency distributions of `LatencyConfig`. -/
inductive LatencyDistribution where
  | uniform
  | normal
  | exponential
deriving DecidableEq

/-- `LatencyConfig` from `latencyInjection.ts`. -/
structure LatencyConfig where
  enabled : Bool
  minMs : ℚ
  maxMs : ℚ
  distribution : LatencyDistribution
  applyToRoutes : Option (List String) := none
  excludeRoutes : Option (List String) := none

/-- The transcendental `Math` library functions (`Math.sqrt`, `Math.log`,
`Math.cos`) and the constant `Math.PI` used by the latency sampler.  Their
values are platform floats; they enter the embedding as abstract
parameters, and the clamping bounds proved below hold for every
implementation. -/
structure MathLib where
  sqrt : ℚ → ℚ
  log : ℚ → ℚ
  cos : ℚ → ℚ
  pi : ℚ

/-- `generateNormalDistribution(min, max)` lines 317-328: Box-Muller with
mean `(min+max)/2` and standard deviation `(max-min)/6`, hard-clamped by
`Math.max(min, Math.min(max, value))`. -/
def generateNormalDistribution (m : MathLib) (lo hi u1 u2 : ℚ) : ℚ :=
  let mean := (lo + hi) / 2
  let stdDev := (hi - lo) / 6
  let z0 := m.sqrt (-2 * m.log u1) * m.cos (2 * m.pi * u2)
  max lo (min hi (mean + z0 * stdDev))

/-- `generateExponentialDistribution(min, max)` lines 333-337: rate
`1 / ((max-min)/3)`, sample `-ln(u)/λ + min`, hard-clamped. -/
def generateExponentialDistribution (m : MathLib) (lo hi u : ℚ) : ℚ :=
  let lambda := 1 / ((hi - lo) / 3)
  max lo (min hi (-(m.log u) / lambda + lo))

/-- `generateLatency()` lines 296-312, with the draws explicit: `uniform`
scales one draw into the range; the other two distributions transform and
clamp.  (The `default` switch arm repeats the `uniform` formula and is
unreachable for the closed union type.) -/
def generateLatency (m : MathLib) (cfg : LatencyConfig) (u1 u2 : ℚ) : ℚ :=
  match cfg.distribution with
  | .uniform => u1 * (cfg.maxMs - cfg.minMs) + cfg.minMs
  | .normal => generateNormalDistribution m cfg.minMs cfg.maxMs u1 u2
  | .exponential => generateExponentialDistribution m cfg.minMs cfg.maxMs u1

/-- Splitting a character list at every occurrence of a separator
character (the grouping structure of a hyphenated string). -/
def splitOnChar (c : Char) : List Char → List (List Char)
  | [] => [[]]
  | x :: xs =>
      match splitOnChar c xs, decide (x = c) with
      | r, true => [] :: r
      | [], false => [[x]]
      | g :: gs, false => (x :: g) :: gs

/-- Stated from the spec's words, for comparison against the code: the
canonical UUID grouping — five hyphen-separated groups of 8, 4, 4, 4 and
12 hexadecimal characters (claim C6). -/
def isCanonicalUuidGrouping (s : String) : Bool :=
  let isHexChar : Char → Bool := fun c =>
    c.isDigit || ('a' ≤ c && c ≤ 'f') || ('A' ≤ c && c ≤ 'F')
  match splitOnChar '-' s.data with
  | [a, b, c, d, e] =>
      a.length == 8 && b.length == 4 && c.length == 4 && d.length == 4 &&
        e.length == 12 && (a ++ b ++ c ++ d ++ e).all isHexChar
  | _ => false

/-- Stated from the claim's words, for comparison against the code: the
invalidity condition claim C4 asserts for `validateSchema` — some field
has an unknown or missing type, is an enum field lacking a non-empty enum
constraint, declares a numeric `min` exceeding a numeric `max`, or
declares a negative `length`. -/
def claimC4Invalidity (schema : DataSchema) : Bool :=
  schema.any (fun nf =>
    let fd := nf.2
    (match fd.type with
     | none => true
     | some t => t == "" || !(validTypes.contains t)) ||
    ((fd.type == some "enum") && (match fd.constraints.bind (·.enum) with
        | none => true
        | some l => l.isEmpty)) ||
    (match fd.constraints with
     | some c =>
         (match c.min, c.max with
          | some (.num a), some (.num b) => decide (b < a)
          | _, _ => false)
     | none => false) ||
    (match fd.constraints.bind (·.length) with
     | some l => decide (l < 0)
     | none => false))

end NodePerf

namespace NodePerf

/-- A date-parse function for evaluations whose schemas contain no
`iso8601` field (its value is never consulted there). -/
def noParse : String → Option ℚ := fun _ => none

/-- A one-field numeric schema (`{value: {type: 'number'}}`). -/
def numberSchema : DataSchema :=
  [("value", { type := some "number" })]

/-- An engine freshly constructed with seed 42 over `numberSchema`. -/
def engineC1 : Engine :=
  mkDataGenerator
    { totalRecords := 1000, batchSize := 100, schema := numberSchema,
      seed := some 42 } 0

/-- Generator state over the empty schema with 10 total records, seed 1. -/
def stEmpty : DataGeneratorState :=
  { currentOffset := 0, totalRecords := 10, generatedCount := 0,
    schema := [], seed := 1 }

/-- Generator state whose schema declares an `enum` field with an empty
`enum` list — the schema of the repository's "should handle extreme
constraint values" test, cut down to the offending field. -/
def stEmptyEnum : DataGeneratorState :=
  { currentOffset := 0, totalRecords := 5, generatedCount := 0,
    schema := [("emptyEnum", { type := some "enum",
                               constraints := some { enum := some [] } })],
    seed := 42 }

/-- A schema whose `iso8601` field declares string bounds with
`min > max` lexicographically. -/
def schemaIsoBad : DataSchema :=
  [("d", { type := some "iso8601",
           constraints := some { min := some (.str "b"),
                                 max := some (.str "a") } })]

/-- The claim's first validation example: `{status: {type: 'enum'}}`. -/
def schemaEnumNone : DataSchema :=
  [("status", { type := some "enum" })]

/-- The claim's second validation example:
`{a: {type: 'number', constraints: {min: 5, max: 1}}}`. -/
def schemaMinMax : DataSchema :=
  [("a", { type := some "number",
           constraints := some { min := some (.num 5),
                                 max := some (.num 1) } })]

/-- The per-field invalidity condition of claim C4, amended only in its
`min`/`max` clause: the comparison is the JS relational comparison the
code actually performs (numeric, lexicographic, or via `ToNumber`),
applied whenever both bounds are declared. -/
def fieldInvalidityAmended (fd : FieldDefinition) : Bool :=
  let t := fd.type.getD ""
  if t == "" then true
  else
    !(validTypes.contains t) ||
    ((t == "enum") && (match fd.constraints.bind (·.enum) with
        | none => true
        | some l => l.isEmpty)) ||
    (match fd.constraints with
     | some c =>
         (match c.min, c.max with
          | some a, some b => jsGt a b
          | _, _ => false)
     | none => false) ||
    (match fd.constraints.bind (·.length) with
     | some l => decide (l < 0)
     | none => false)

/-- The schema-level amended invalidity condition of claim C4. -/
def amendedInvalidity (schema : DataSchema) : Bool :=
  schema.any (fun nf => fieldInvalidityAmended nf.2)

/-- A latency configuration sampling uniformly from `[100, 500]`. -/
def latencyCfg100500 : LatencyConfig :=
  { enabled := true, minMs := 100, maxMs := 500,
    distribution := .uniform }

/-- A trivial model of the `Math` transcendentals, for instantiating the
latency bound. -/
def mathLibZero : MathLib :=
  { sqrt := fun _ => 0, log := fun _ => 0, cos := fun _ => 0, pi := 0 }

/-- An error-injection configuration with two weighted error types. -/
def errorCfgTwo : ErrorInjectionConfig :=
  { enabled := true, errorRate := 1 / 2,
    errorTypes :=
      [{ type := "server_error", statusCode := 500,
         message := "Internal server error occurred", probability := 1 },
       { type := "timeout", statusCode := 504,
         message := "Request timeout", probability := 2 }] }

/-- A small generation configuration for exhibiting a reachable engine. -/
def cfgSmall : GenerationConfig :=
  { totalRecords := 5, batchSize := 10, schema := [], seed := some 7 }

/-- The batch returned for `generateBatch(8, 5)` on `stEmpty`. -/
def batchTail : BatchResult :=
  { records := [{ id := "00000009-0000-4000-8000-00000009", fields := [] },
                { id := "0000000a-0000-4000-8000-0000000a", fields := [] }],
    hasMore := false, nextOffset := none, totalCount := 10 }

end NodePerf

namespace NodePerf

/-- A successful `generateRecord` carries the deterministic id for its
index. -/
lemma generateRecord_ok_id (jsD : String → Option ℚ) (now : ℚ) (seed : ℤ)
    (schema : DataSchema) (i p : ℤ) (r : MockRecord) (p1 : ℤ)
    (h : generateRecord jsD now seed schema i p = (.ok r, p1)) :
    r.id = generateId seed i := by
  unfold generateRecord at h
  rcases hf : generateFields jsD now seed schema i p with ⟨v, pv⟩
  rw [hf] at h
  cases v with
  | err e => simp at h
  | ok vs =>
      simp at h
      rw [← h.1]

/-- A successful batch loop returns exactly as many records as
requested. -/
lemma generateBatchLoop_ok_length (jsD : String → Option ℚ) (now : ℚ)
    (seed : ℤ) (schema : DataSchema) :
    ∀ (n : ℕ) (i p : ℤ) (rs : List MockRecord) (p1 : ℤ),
      generateBatchLoop jsD now seed schema i n p = (.ok rs, p1) →
      rs.length = n := by
  intro n
  induction n with
  | zero =>
      intro i p rs p1 h
      simp [generateBatchLoop] at h
      simp [h.1]
  | succ n ih =>
      intro i p rs p1 h
      simp only [generateBatchLoop] at h
      split at h
      · simp at h
      · rename_i r pv hr
        split at h
        · simp at h
        · rename_i rest pw hl
          simp at h
          rw [← h.1]
          simp [ih _ _ _ _ hl]

/-- Each record returned by the batch loop carries the deterministic id of
its position. -/
lemma generateBatchLoop_ok_id (jsD : String → Option ℚ) (now : ℚ)
    (seed : ℤ) (schema : DataSchema) :
    ∀ (n : ℕ) (i p : ℤ) (rs : List MockRecord) (p1 : ℤ),
      generateBatchLoop jsD now seed schema i n p = (.ok rs, p1) →
      ∀ (k : ℕ) (hk : k < rs.length),
        (rs.get ⟨k, hk⟩).id = generateId seed (i + k) := by
  intro n
  induction n with
  | zero =>
      intro i p rs p1 h
      simp [generateBatchLoop] at h
      intro k hk
      rw [h.1] at hk
      simp at hk
  | succ n ih =>
      intro i p rs p1 h
      simp only [generateBatchLoop] at h
      split at h
      · simp at h
      · rename_i r pv hr
        split at h
        · simp at h
        · rename_i rest pw hl
          simp at h
          obtain ⟨h1, h2⟩ := h
          subst h1
          intro k hk
          cases k with
          | zero =>
              simpa using generateRecord_ok_id jsD now seed schema i p r pv hr
          | succ k =>
              have := ih _ _ _ _ hl k (by simpa using hk)
              simpa [add_assoc, add_comm, add_left_comm] using this

end NodePerf

namespace NodePerf

/-- The subtraction walk lands on a list element whenever its draw lies in
`[0, totalWeight)`; the fallthrough after the loop is unreachable then. -/
lemma selectErrorTypeLoop_mem :
    ∀ (l : List ErrorType) (r : ℚ), 0 ≤ r →
      r < (l.map (·.probability)).sum →
      ∃ e ∈ l, selectErrorTypeLoop l r = some e := by
  intro l
  induction l with
  | nil =>
      intro r h0 hlt
      simp at hlt
      linarith
  | cons e rest ih =>
      intro r h0 hlt
      by_cases hc : r - e.probability ≤ 0
      · exact ⟨e, List.mem_cons_self e rest, by simp [selectErrorTypeLoop, hc]⟩
      · push_neg at hc
        simp only [List.map_cons, List.sum_cons] at hlt
        obtain ⟨e2, hmem, heq⟩ :=
          ih (r - e.probability) (by linarith) (by linarith)
        refine ⟨e2, List.mem_cons_of_mem _ hmem, ?_⟩
        simp [selectErrorTypeLoop, not_le.mpr hc, heq]

/-- One PRNG step from a non-negative state stays inside `[0, 233280)`. -/
lemma seededRandomNext_bounds (s : ℤ) (h : 0 ≤ s) :
    0 ≤ seededRandomNext s ∧ seededRandomNext s < 233280 := by
  constructor
  · exact Int.tmod_nonneg _ (by nlinarith)
  · exact Int.tmod_lt_of_pos _ (by norm_num)

/-- Every PRNG state after at least one step from a non-negative seed lies
in `[0, 233280)`. -/
lemma seededRandomState_bounds (seed : ℤ) (h : 0 ≤ seed) :
    ∀ n : ℕ, 0 ≤ seededRandomState seed (n + 1) ∧
      seededRandomState seed (n + 1) < 233280 := by
  intro n
  induction n with
  | zero => exact seededRandomNext_bounds seed h
  | succ n ih => exact seededRandomNext_bounds _ ih.1

end NodePerf

namespace NodePerf

/-- Per-field agreement between `validateSchema`'s error list and the
amended invalidity condition of claim C4. -/
lemma validateField_eq_nil_iff (name : String) (fd : FieldDefinition) :
    validateField name fd = [] ↔ fieldInvalidityAmended fd = false := by
  rcases fd with ⟨t?, req, dflt, c?⟩
  rcases t? with _ | t
  · simp [validateField, fieldInvalidityAmended]
  · rcases c? with _ | ⟨mn, mx, len, pat, en, fmt⟩
    · by_cases ht : t = "" <;>
        simp [validateField, fieldInvalidityAmended, ht]
    · by_cases ht : t = ""
      · simp [validateField, fieldInvalidityAmended, ht]
      · rcases mn with _ | mn <;> rcases mx with _ | mx <;>
          rcases len with _ | len <;> rcases en with _ | en <;>
          simp [validateField, fieldInvalidityAmended, ht] <;>
          tauto

end NodePerf

namespace NodePerf

/-- C5: for every partial configuration, `reset` replaces exactly the
provided state fields, leaves the unspecified ones unchanged,
unconditionally zeroes `currentOffset` and `generatedCount`, rebinds the
PRNG to the new seed exactly when a seed is provided, and `getState`
reports `currentOffset = 0` immediately afterwards. -/
theorem reset_frame_conditions (c : ResetConfig) (e : Engine) :
    (reset c e).st.totalRecords = c.totalRecords.getD e.st.totalRecords
    ∧ (reset c e).st.schema = c.schema.getD e.st.schema
    ∧ (reset c e).st.seed = c.seed.getD e.st.seed
    ∧ (reset c e).st.currentOffset = 0
    ∧ (reset c e).st.generatedCount = 0
    ∧ (reset c e).prng = c.seed.getD e.prng
    ∧ (getState (reset c e)).currentOffset = 0 := by
  rcases c with ⟨t?, b?, s?, sd?⟩
  rcases t? with _ | t <;> rcases s? with _ | s <;> rcases sd? with _ | sd <;>
    simp [reset, getState]

/-- C6 (code bug): the identifier generated for seed 42, index 0 — the
deterministic id is a pure function of `(seed, index)`, but its fifth
hyphen-separated group has 8 characters, not the canonical 12
(`seedStr.slice(0, 12)` of an 8-character padded hex string), so the
string does not have the 8-4-4-4-12 grouping the claim and the
repository's `toBeValidUuid` matcher require. -/
theorem generateDeterministicUuid_shape_at_seed42 :
    generateId 42 0 = "0000002a-0000-4000-8000-0000002a"
    ∧ isCanonicalUuidGrouping (generateId 42 0) = false
    ∧ (splitOnChar '-' (generateId 42 0).data).map List.length =
        [8, 4, 4, 4, 8] := by
  decide

/-- C7 counterexample: from the negative seed -100000 the very first
value of the stream is negative (JS `%` keeps the dividend's sign), hence
not in `[0, 1)`. -/
theorem seededRandomStream_negative_seed_value_negative :
    seededRandomStream (-100000) 0 < 0 := by
  have h : seededRandomState (-100000) 1 = -196623 := by decide
  rw [seededRandomStream, h]
  norm_num

/-- C7 (amended): for every non-negative integer seed, every value of the
seeded PRNG stream lies in `[0, 1)` (and the stream is a pure function of
the seed, so equal seeds give identical streams by construction). -/
theorem seededRandomStream_mem_Ico_of_nonneg_seed (seed : ℤ)
    (h : 0 ≤ seed) (n : ℕ) :
    0 ≤ seededRandomStream seed n ∧ seededRandomStream seed n < 1 := by
  obtain ⟨h0, h1⟩ := seededRandomState_bounds seed h n
  rw [seededRandomStream]
  constructor
  · apply div_nonneg _ (by norm_num)
    exact_mod_cast h0
  · rw [div_lt_one (by norm_num)]
    exact_mod_cast h1

/-- Witness for C7's amended theorem at seed 3, position 0. -/
theorem seededRandomStream_mem_Ico_witness :
    0 ≤ (3 : ℤ) ∧
      (0 ≤ seededRandomStream 3 0 ∧ seededRandomStream 3 0 < 1) :=
  ⟨by decide, seededRandomStream_mem_Ico_of_nonneg_seed 3 (by decide) 0⟩

/-- C10: in every reachable engine state the bookkeeping counters
`currentOffset` and `generatedCount` are 0 — the constructor zeroes them,
`reset` re-zeroes them, and no other operation writes them — so the
snapshots exposed by `getState` and `getMetrics` never reflect generation
activity. -/
theorem reachable_engine_counters_zero {e : Engine} (h : Reachable e) :
    e.st.currentOffset = 0 ∧ e.st.generatedCount = 0
    ∧ (getState e).currentOffset = 0 ∧ (getState e).generatedCount = 0
    ∧ (getMetrics e).currentOffset = 0 ∧ (getMetrics e).generatedCount = 0 := by
  have key : e.st.currentOffset = 0 ∧ e.st.generatedCount = 0 := by
    induction h with
    | init cfg nowClock => simp [mkDataGenerator]
    | stepBatch jsD nowMs offset limit hr ih =>
        simpa [engineGenerateBatch] using ih
    | stepReset c hr ih =>
        rcases c with ⟨t?, b?, s?, sd?⟩
        rcases sd? with _ | sd <;> simp [reset]
    | stepUpdate schema hr ih =>
        simpa [updateSchema] using ih
  exact ⟨key.1, key.2, key.1, key.2, key.1, key.2⟩

/-- Witness for C10 at a freshly constructed engine. -/
theorem reachable_engine_counters_zero_witness :
    (mkDataGenerator cfgSmall 0).st.currentOffset = 0
    ∧ (mkDataGenerator cfgSmall 0).st.generatedCount = 0
    ∧ (getState (mkDataGenerator cfgSmall 0)).currentOffset = 0
    ∧ (getState (mkDataGenerator cfgSmall 0)).generatedCount = 0
    ∧ (getMetrics (mkDataGenerator cfgSmall 0)).currentOffset = 0
    ∧ (getMetrics (mkDataGenerator cfgSmall 0)).generatedCount = 0 :=
  reachable_engine_counters_zero (Reachable.init cfgSmall 0)

end NodePerf

namespace NodePerf

/-- C3 (code bug): with a schema whose enum field has an empty `enum`
list — a schema the repository's "should handle extreme constraint
values" test feeds to `generateBatch` expecting no throw — `generateBatch`
throws `Error('Enum field must have enum constraint with values')` from
the generation path instead of reporting the problem only through
`validateSchema`. -/
theorem generateBatch_throws_on_empty_enum :
    generateBatch noParse 0 stEmptyEnum 42 0 5 =
      (.err "Enum field must have enum constraint with values", 42)
    ∧ (validateSchema stEmptyEnum.schema).valid = false
    ∧ (generateBatch noParse 0
        { stEmptyEnum with
            schema := [("x", { type := some "custom" })] } 42 0 5).1 =
      .err "Unsupported field type: custom" := by
  decide

/-- C2 counterexample: with `totalRecords = 10`, `offset = 10 ≥
totalRecords` and the negative limit `-5`, the record list is empty but
`hasMore` is `true` (the clamped end index `min(10 + (-5), 10) = 5` is
strictly below `totalRecords`), contradicting the claim that `hasMore` is
false for any limit whenever `offset ≥ totalRecords`. -/
theorem generateBatch_offset_at_total_negative_limit_hasMore :
    stEmpty.totalRecords = 10
    ∧ generateBatch noParse 0 stEmpty 1 10 (-5) =
        (.ok { records := [], hasMore := true, nextOffset := some "5",
               totalCount := 10 }, 1) := by
  decide

/-- C2 (amended): for every non-negative offset and every limit, a
successful `generateBatch` returns exactly the records of the index range
`[offset, min(offset + limit, totalRecords))` (witnessed by the count and
by each record's position-determined id), `hasMore` holds iff the clamped
end index is strictly below `totalRecords`, `nextOffset` is present iff
`hasMore`, `totalCount` equals the configured total, and when
`offset ≥ totalRecords` the record list is empty — with `hasMore = false`
guaranteed for non-negative limits. -/
theorem generateBatch_range_clamping
    (jsD : String → Option ℚ) (now : ℚ) (st : DataGeneratorState)
    (p offset limit : ℤ) (res : BatchResult) (p1 : ℤ)
    (hoff : 0 ≤ offset)
    (h : generateBatch jsD now st p offset limit = (.ok res, p1)) :
    res.records.length = (min (offset + limit) st.totalRecords - offset).toNat
    ∧ (∀ (k : ℕ) (hk : k < res.records.length),
        (res.records.get ⟨k, hk⟩).id = generateId st.seed (offset + k))
    ∧ (res.hasMore = true ↔ min (offset + limit) st.totalRecords < st.totalRecords)
    ∧ res.nextOffset = (if min (offset + limit) st.totalRecords < st.totalRecords
        then some (min (offset + limit) st.totalRecords).repr else none)
    ∧ res.nextOffset.isSome = res.hasMore
    ∧ res.totalCount = st.totalRecords
    ∧ (st.totalRecords ≤ offset →
        res.records = [] ∧ (0 ≤ limit → res.hasMore = false)) := by
  simp only [generateBatch] at h
  split at h
  · simp at h
  · rename_i recs pr hl
    simp at h
    obtain ⟨hres, hp⟩ := h
    subst hres
    have hlen : recs.length =
        (min (offset + limit) st.totalRecords - offset).toNat :=
      generateBatchLoop_ok_length _ _ _ _ _ _ _ _ _ hl
    refine ⟨by simpa using hlen, ?_, by simp, by simp, ?_, rfl, ?_⟩
    · intro k hk
      simpa using generateBatchLoop_ok_id _ _ _ _ _ _ _ _ _ hl k (by simpa using hk)
    · by_cases hq : offset + limit < st.totalRecords <;> simp [hq]
    · intro hto
      constructor
      · have hz : (min (offset + limit) st.totalRecords - offset).toNat = 0 := by
          omega
        have : recs.length = 0 := by rw [hlen, hz]
        simpa using List.length_eq_zero.mp this
      · intro hlim
        simp only [decide_eq_false_iff_not]
        omega

end NodePerf

namespace NodePerf

/-- Witness for C2's amended theorem: `generateBatch(8, 5)` over the empty
schema with 10 total records succeeds with 2 records and `hasMore =
false`. -/
theorem generateBatch_range_clamping_witness :
    batchTail.records.length =
      (min ((8 : ℤ) + 5) stEmpty.totalRecords - 8).toNat
    ∧ (∀ (k : ℕ) (hk : k < batchTail.records.length),
        (batchTail.records.get ⟨k, hk⟩).id = generateId stEmpty.seed (8 + k))
    ∧ (batchTail.hasMore = true ↔
        min ((8 : ℤ) + 5) stEmpty.totalRecords < stEmpty.totalRecords)
    ∧ batchTail.nextOffset =
        (if min ((8 : ℤ) + 5) stEmpty.totalRecords < stEmpty.totalRecords
         then some (min ((8 : ℤ) + 5) stEmpty.totalRecords).repr else none)
    ∧ batchTail.nextOffset.isSome = batchTail.hasMore
    ∧ batchTail.totalCount = stEmpty.totalRecords
    ∧ (stEmpty.totalRecords ≤ 8 →
        batchTail.records = [] ∧ (0 ≤ (5 : ℤ) → batchTail.hasMore = false)) :=
  generateBatch_range_clamping noParse 0 stEmpty 1 8 5 batchTail 1
    (by decide) (by decide)

end NodePerf

namespace NodePerf

/-- C1 (code bug): one engine, seed 42, schema `{value: {type: 'number'}}`
— requesting the same position 0 twice yields different records, because
every field value is drawn from a single shared PRNG closure that is
never reseeded per record, so the record at a position depends on how many
draws earlier calls consumed.  The spec's invariant and the repository's
own "should maintain consistency with same seed and offset" test demand
identical records. -/
theorem generateBatch_same_offset_differs_across_calls :
    (generateBatch noParse 0 engineC1.st engineC1.prng 0 1).1 =
      .ok { records := [{ id := "0000002a-0000-4000-8000-0000002a",
                          fields := [("value", .vNum (5166475 / 5832))] }],
            hasMore := true, nextOffset := some "1", totalCount := 1000 }
    ∧ (generateBatch noParse 0
          (engineGenerateBatch noParse 0 engineC1 0 1).st
          (engineGenerateBatch noParse 0 engineC1 0 1).prng 0 1).1 =
      .ok { records := [{ id := "0000002a-0000-4000-8000-0000002a",
                          fields := [("value", .vNum (596050 / 729))] }],
            hasMore := true, nextOffset := some "1", totalCount := 1000 }
    ∧ (5166475 / 5832 : ℚ) ≠ (596050 / 729 : ℚ) := by
  have h1 : seededRandomNext 42 = 206659 := by decide
  have h2 : seededRandomNext 206659 = 190736 := by decide
  have h3 : generateId 42 0 = "0000002a-0000-4000-8000-0000002a" := by decide
  have h4 : (min ((0 : ℤ) + 1) 1000) = 1 := by decide
  have h5 : ((1 : ℤ)).repr = "1" := by decide
  refine ⟨?_, ?_, by norm_num⟩ <;>
  · simp only [engineC1, engineGenerateBatch, mkDataGenerator, numberSchema,
      generateBatch, generateBatchLoop, generateRecord, generateFields,
      generateFieldValue, generateFieldValueCore, generateNumber,
      seededRandomValue, h1, h2, h3, h4, h5, Option.bind, reduceCtorEq]
    norm_num [h1, h2, h3]

end NodePerf

namespace NodePerf

/-- C4 counterexample: `validateSchema` rejects an `iso8601` field whose
string bounds satisfy `"b" > "a"` lexicographically, although none of the
claim's listed invalidity conditions (unknown/missing type, enum lacking
values, numeric `min > max`, negative length) holds for that schema — so
`valid` is not false *exactly* when the claim's conditions hold. -/
theorem validateSchema_invalid_beyond_claimed_conditions :
    (validateSchema schemaIsoBad).valid = false
    ∧ claimC4Invalidity schemaIsoBad = false := by
  decide

/-- C4 (amended): `validateSchema` is total and pure by construction, and
`valid` is false exactly when some field has an unknown or missing type,
an enum field lacks a non-empty enum constraint, a declared `min` exceeds
a declared `max` under the JS relational comparison (numeric,
lexicographic, or via `ToNumber`), or a declared length is negative; in
particular the claim's two examples are invalid, with the enum error
mentioning the enum constraint. -/
theorem validateSchema_invalid_iff_amended :
    (∀ schema : DataSchema,
        (validateSchema schema).valid = false ↔
          amendedInvalidity schema = true)
    ∧ (validateSchema schemaEnumNone).valid = false
    ∧ (validateSchema schemaEnumNone).errors.any
        (fun e => strIncludes e "enum") = true
    ∧ (validateSchema schemaMinMax).valid = false := by
  refine ⟨?_, by decide, by decide, by decide⟩
  intro schema
  simp only [validateSchema, List.isEmpty_eq_false, ne_eq,
    List.flatMap_eq_nil_iff, amendedInvalidity, List.any_eq_true,
    not_forall, exists_prop]
  constructor
  · rintro ⟨nf, hmem, hne⟩
    refine ⟨nf, hmem, ?_⟩
    rcases Bool.eq_false_or_eq_true (fieldInvalidityAmended nf.2) with hf | hf
    · exact hf
    · exact absurd ((validateField_eq_nil_iff nf.1 nf.2).mpr hf) hne
  · rintro ⟨nf, hmem, htrue⟩
    refine ⟨nf, hmem, ?_⟩
    intro hnil
    have hf := (validateField_eq_nil_iff nf.1 nf.2).mp hnil
    rw [htrue] at hf
    simp at hf

end NodePerf

namespace NodePerf

/-- C8: for every latency configuration with `0 ≤ minMs ≤ maxMs`, every
distribution, every implementation of the `Math` transcendentals and all
draws in `[0, 1)`, the sampled delay lies within `[minMs, maxMs]` —
`uniform` by the scaling formula, `normal` and `exponential` by the hard
clamp `Math.max(min, Math.min(max, value))`. -/
theorem generateLatency_within_bounds (m : MathLib) (cfg : LatencyConfig)
    (u1 u2 : ℚ) (hmin : 0 ≤ cfg.minMs) (hle : cfg.minMs ≤ cfg.maxMs)
    (hu1 : 0 ≤ u1) (hu1l : u1 < 1) (hu2 : 0 ≤ u2) (hu2l : u2 < 1) :
    cfg.minMs ≤ generateLatency m cfg u1 u2
    ∧ generateLatency m cfg u1 u2 ≤ cfg.maxMs := by
  cases hcd : cfg.distribution with
  | uniform =>
      simp only [generateLatency, hcd]
      constructor
      · nlinarith [mul_nonneg hu1 (sub_nonneg.mpr hle)]
      · nlinarith [mul_le_of_le_one_left (sub_nonneg.mpr hle) (le_of_lt hu1l)]
  | normal =>
      simp only [generateLatency, hcd, generateNormalDistribution]
      exact ⟨le_max_left _ _, max_le hle (min_le_left _ _)⟩
  | exponential =>
      simp only [generateLatency, hcd, generateExponentialDistribution]
      exact ⟨le_max_left _ _, max_le hle (min_le_left _ _)⟩

/-- Witness for C8 on the `{minMs: 100, maxMs: 500}` uniform
configuration. -/
theorem generateLatency_within_bounds_witness :
    latencyCfg100500.minMs ≤ generateLatency mathLibZero latencyCfg100500 0 0
    ∧ generateLatency mathLibZero latencyCfg100500 0 0 ≤ latencyCfg100500.maxMs :=
  generateLatency_within_bounds mathLibZero latencyCfg100500 0 0
    (by norm_num [latencyCfg100500]) (by norm_num [latencyCfg100500])
    (by norm_num) (by norm_num) (by norm_num) (by norm_num)

/-- C9: the error selector is a total function (it never throws); the
middleware injects nothing when the gating draw exceeds `errorRate`; a
zero total weight yields `null`; and a positive total weight always
selects an element of the configured `errorTypes` list via the
subtraction walk. -/
theorem injectErrors_gate_and_weighted_selection
    (cfg : ErrorInjectionConfig) (path : String) (u u2 : ℚ)
    (hw : ∀ e ∈ cfg.errorTypes, 0 ≤ e.probability)
    (hu2 : 0 ≤ u2) (hu2l : u2 < 1) :
    (cfg.errorRate < u → injectErrorsDecision cfg path u u2 = none)
    ∧ ((cfg.errorTypes.map (·.probability)).sum = 0 →
        selectErrorType cfg.errorTypes u2 = none)
    ∧ (0 < (cfg.errorTypes.map (·.probability)).sum →
        ∃ e ∈ cfg.errorTypes, selectErrorType cfg.errorTypes u2 = some e) := by
  refine ⟨?_, ?_, ?_⟩
  · intro hgt
    unfold injectErrorsDecision
    split_ifs with h1 h2 <;> rfl
  · intro hz
    simp [selectErrorType, hz]
  · intro hpos
    have hne : (cfg.errorTypes.map (·.probability)).sum ≠ 0 := ne_of_gt hpos
    obtain ⟨e, hmem, heq⟩ := selectErrorTypeLoop_mem cfg.errorTypes
      (u2 * (cfg.errorTypes.map (·.probability)).sum)
      (mul_nonneg hu2 (le_of_lt hpos))
      (by
        calc u2 * (cfg.errorTypes.map (·.probability)).sum
            < 1 * (cfg.errorTypes.map (·.probability)).sum :=
              mul_lt_mul_of_pos_right hu2l hpos
          _ = (cfg.errorTypes.map (·.probability)).sum := one_mul _)
    refine ⟨e, hmem, ?_⟩
    simp [selectErrorType, hne, heq]

/-- Witness for C9 on a two-entry configuration with weights 1 and 2. -/
theorem injectErrors_gate_and_weighted_selection_witness :
    (errorCfgTwo.errorRate < 1 →
        injectErrorsDecision errorCfgTwo "/api/data" 1 0 = none)
    ∧ ((errorCfgTwo.errorTypes.map (·.probability)).sum = 0 →
        selectErrorType errorCfgTwo.errorTypes 0 = none)
    ∧ (0 < (errorCfgTwo.errorTypes.map (·.probability)).sum →
        ∃ e ∈ errorCfgTwo.errorTypes,
          selectErrorType errorCfgTwo.errorTypes 0 = some e) :=
  injectErrors_gate_and_weighted_selection errorCfgTwo "/api/data" 1 0
    (by decide) (by decide) (by decide)

end NodePerf
